import Mathlib

/-!
Shallow embedding of the calculation core of `src/bot.py` (a Discord running
bot). Python floats are idealized as exact rationals (`ℚ`), except for the
Riegel power-law prediction where the real-exponent power forces `ℝ`.
Python functions that can raise an uncaught exception on some input
(`ValueError` from `int(...)`, `ZeroDivisionError` from division by zero)
are embedded as `Option`-valued functions, `none` marking the raise.
Machine integers do not overflow in Python, so `Int`/`Nat` are used directly.
-/

/-! ### Character and string utilities (Python `str.strip`, `str.split`, `int`) -/

/-- Characters treated as whitespace by Python `str.strip()` (ASCII subset). -/
def isPySpace (c : Char) : Bool :=
  c = ' ' || c = '\t' || c = '\n' || c = '\r' || c = '\x0b' || c = '\x0c'

/-- Python `str.strip()`: remove leading and trailing whitespace. -/
def pyStrip (l : List Char) : List Char :=
  ((l.dropWhile isPySpace).reverse.dropWhile isPySpace).reverse

/-- Python `s.split(":")`: split on every colon, keeping empty groups;
`"".split(":") = [""]`. -/
def splitOnColon : List Char → List (List Char)
  | [] => [[]]
  | c :: rest =>
    if c = ':' then [] :: splitOnColon rest
    else
      match splitOnColon rest with
      | [] => [[c]]
      | g :: gs => (c :: g) :: gs

/-- ASCII decimal digit test (`'0'` to `'9'`). -/
def isDigitChar (c : Char) : Bool :=
  decide (48 ≤ c.toNat ∧ c.toNat ≤ 57)

/-- Numeric value of an ASCII digit character. -/
def digitVal (c : Char) : Nat := c.toNat - 48

/-- Value of a string of decimal digits, most significant first. -/
def digitsToNat (ds : List Char) : Nat :=
  ds.foldl (fun a c => 10 * a + digitVal c) 0

/-- Python `int(s)` on a string: optional surrounding whitespace, optional
single sign, then a nonempty run of decimal digits; `none` models the
`ValueError` raised on anything else. (Unicode digits and `_` separators,
which CPython also accepts, are outside the inputs this bot sees and are
not modelled.) -/
def pyIntOfChars (l : List Char) : Option Int :=
  match pyStrip l with
  | '+' :: ds => if ds ≠ [] ∧ ds.all isDigitChar then some ((digitsToNat ds : Nat) : Int) else none
  | '-' :: ds => if ds ≠ [] ∧ ds.all isDigitChar then some (-((digitsToNat ds : Nat) : Int)) else none
  | ds => if ds ≠ [] ∧ ds.all isDigitChar then some ((digitsToNat ds : Nat) : Int) else none

/-! ### TimeCodec: `parse_time_to_seconds`, `format_time`, `seconds_to_pace_str` -/

/-- Embedding of `parse_time_to_seconds` from `src/bot.py`: split the stripped input on
colons; two groups are read as `mm:ss`, three as `hh:mm:ss`; every group goes
through Python `int`. `none` models the raised `ValueError` (any other group
count, or a non-integer group). There is no further check on the total. -/
def parse_time_to_seconds (time_str : String) : Option Int :=
  match splitOnColon (pyStrip time_str.data) with
  | [ms, ss] =>
    match pyIntOfChars ms, pyIntOfChars ss with
    | some m, some s => some (m * 60 + s)
    | _, _ => none
  | [hs, ms, ss] =>
    match pyIntOfChars hs, pyIntOfChars ms, pyIntOfChars ss with
    | some h, some m, some s => some (h * 3600 + m * 60 + s)
    | _, _, _ => none
  | _ => none

/-- Well-formedness of the colon-separated groups of an input: the shape on
which `parse_time_to_seconds` does not raise `ValueError`: two or three
groups, each accepted by Python `int`. -/
def goodGroups (gs : List (List Char)) : Prop :=
  (gs.length = 2 ∨ gs.length = 3) ∧ ∀ g ∈ gs, (pyIntOfChars g).isSome

/-- Python `round` on a rational: nearest integer, ties to even. -/
def pyRound (q : ℚ) : Int :=
  let f := ⌊q⌋
  let r := q - f
  if r < 1 / 2 then f
  else if 1 / 2 < r then f + 1
  else if f % 2 = 0 then f else f + 1

/-- Python `int()` applied to a float value: truncation toward zero. -/
def pyTrunc (q : ℚ) : Int :=
  if q < 0 then ⌈q⌉ else ⌊q⌋

/-- Digit character for a value below ten. -/
def digitChar : Nat → Char
  | 0 => '0' | 1 => '1' | 2 => '2' | 3 => '3' | 4 => '4'
  | 5 => '5' | 6 => '6' | 7 => '7' | 8 => '8' | _ => '9'

/-- Decimal digits of a natural number, most significant first, written with
explicit fuel so that it is structural recursion (the kernel can evaluate
it); `natDigits` below instantiates the fuel. -/
def natDigitsFuel : Nat → Nat → List Char
  | 0, n => [digitChar n]
  | fuel + 1, n =>
    if n < 10 then [digitChar n]
    else natDigitsFuel fuel (n / 10) ++ [digitChar (n % 10)]

/-- Decimal rendering of a natural number (`"%d"` for nonnegative values). -/
def natDigits (n : Nat) : List Char := natDigitsFuel n n

/-- Python `"%d"` rendering of an integer. -/
def renderInt (n : Int) : List Char :=
  if n < 0 then '-' :: natDigits (-n).toNat else natDigits n.toNat

/-- Python `"%02d"` rendering: pad a single nonnegative digit with a zero. -/
def pad2 (n : Int) : List Char :=
  if 0 ≤ n ∧ n < 10 then '0' :: natDigits n.toNat else renderInt n

/-- Embedding of `format_time` from `src/bot.py`: round the input, then render
`h:mm:ss` when the hour part is positive and `m:ss` otherwise. Python `//`
and `%` by the positive constants 3600 and 60 are floor division and floor
modulus, which coincide with the Euclidean `/` and `%` of `Int`. -/
def format_time (seconds : ℚ) : String :=
  let n : Int := pyRound seconds
  let h : Int := n / 3600
  let m : Int := n % 3600 / 60
  let s : Int := n % 60
  if 0 < h then ⟨renderInt h ++ ':' :: (pad2 m ++ ':' :: pad2 s)⟩
  else ⟨renderInt m ++ ':' :: pad2 s⟩

/-- The two integer fields `(minutes, seconds)` computed by
`seconds_to_pace_str` in `src/bot.py`: `int(x // 60)` and `int(round(x % 60))`.
The float `%` with positive divisor is `x - 60 * ⌊x / 60⌋`. -/
def seconds_to_pace_parts (seconds_per_km : ℚ) : Int × Int :=
  (⌊seconds_per_km / 60⌋, pyRound (seconds_per_km - 60 * ⌊seconds_per_km / 60⌋))

/-- Embedding of `seconds_to_pace_str` from `src/bot.py`: render the minutes
field, a colon, the two-digit-padded seconds field, and the suffix slash-km;
the seconds field is rendered as computed, with no carry into the minutes
field. -/
def seconds_to_pace_str (seconds_per_km : ℚ) : String :=
  ⟨renderInt (seconds_to_pace_parts seconds_per_km).1 ++
    ':' :: (pad2 (seconds_to_pace_parts seconds_per_km).2 ++ ' ' :: '/' :: 'k' :: 'm' :: [])⟩

/-! ### PerformanceModel: pure formulas -/

/-- Embedding of `estimate_vma_from_5k` from `src/bot.py`: average speed over 5 km divided
by 0.92; `none` models the `ZeroDivisionError` at `time_seconds = 0`. -/
def estimate_vma_from_5k (time_seconds : Int) : Option ℚ :=
  if time_seconds = 0 then none
  else
    let hours : ℚ := (time_seconds : ℚ) / 3600
    let speed_kmh : ℚ := 5 / hours
    some (speed_kmh / 0.92)

/-- Embedding of `estimate_vo2max_from_5k` from `src/bot.py`: Daniels formula on the speed
in metres per minute; `none` models the `ZeroDivisionError` at
`time_seconds = 0` (the only input where the code raises). -/
def estimate_vo2max_from_5k (time_seconds : Int) : Option ℚ :=
  if time_seconds = 0 then none
  else
    let speed_m_per_s : ℚ := 5000 / (time_seconds : ℚ)
    let speed_m_per_min : ℚ := speed_m_per_s * 60
    some (-4.60 + 0.182258 * speed_m_per_min + 0.000104 * speed_m_per_min ^ 2)

/-- Embedding of `riegel_predict_time` from `src/bot.py`: `t1 * (d2 / d1) ** exponent`
with the Python default `exponent = 1.06`; the float power is idealized as the
real power `Real.rpow`. -/
noncomputable def riegel_predict_time (t1_sec d1_km d2_km exponent : ℝ) : ℝ :=
  t1_sec * (d2_km / d1_km) ^ exponent

/-- Modelled from the spec: `estimateMasFromRace(distanceKm, timeSeconds)` with
the distance-specific percentage-of-MAS table (0.92 at 5 km, 0.85 at 10 km,
0.78 at 21.1 km, 0.70 at 42.195 km, raw average speed otherwise) is not in
`src/bot.py`, which only contains the 5 km case `estimate_vma_from_5k`; the
general table is taken from the words of the spec. `none` models failure on a
zero duration, as in the 5 km code. -/
def estimateMasFromRace (distance_km : ℚ) (time_seconds : Int) : Option ℚ :=
  if time_seconds = 0 then none
  else
    let hours : ℚ := (time_seconds : ℚ) / 3600
    let speed : ℚ := distance_km / hours
    let coef : ℚ :=
      if distance_km = 5 then 0.92
      else if distance_km = 10 then 0.85
      else if distance_km = 21.1 then 0.78
      else if distance_km = 42.195 then 0.70
      else 1
    some (speed / coef)

/-! ### AthleteProfile data model and commands -/

/-- Embedding of `RunnerProfile` from `src/bot.py`: the three optional fields, all
defaulted to `None`. -/
structure RunnerProfile where
  vma : Option ℚ
  five_k_time : Option Int
  max_hr : Option Int
deriving DecidableEq

/-- The module-level `profiles` dictionary, keyed by Discord user id. -/
def Store := Int → Option RunnerProfile

/-- Dictionary assignment `profiles[uid] = p`. -/
def updateStore (st : Store) (uid : Int) (p : RunnerProfile) : Store :=
  fun i => if i = uid then some p else st i

/-- The empty `profiles` dictionary. -/
def emptyStore : Store := fun _ => none

/-- Python truthiness of an optional rational field (`None` and `0.0` are
falsy). -/
def truthyOptQ : Option ℚ → Bool
  | none => false
  | some q => decide (q ≠ 0)

/-- Python truthiness of an optional integer field (`None` and `0` are
falsy). -/
def truthyOptInt : Option Int → Bool
  | none => false
  | some n => decide (n ≠ 0)

/-- State effect of `set5k_command` from `src/bot.py`: parse the time (on
`ValueError` the command only sends a message, leaving the store unchanged);
fetch or create the profile, overwrite `five_k_time`, and recompute `vma`
only when it is `None`. When `estimate_vma_from_5k` raises
(`ZeroDivisionError` at a parsed time of 0), the dictionary assignment is
never reached, but a profile that was already stored was fetched by
reference and its `five_k_time` mutation is visible in the store. -/
def set5k_command (st : Store) (uid : Int) (temps_5k : String) : Store :=
  match parse_time_to_seconds temps_5k with
  | none => st
  | some t =>
    let prof0 := (st uid).getD ⟨none, none, none⟩
    let prof1 : RunnerProfile := { prof0 with five_k_time := some t }
    if prof1.vma = none then
      match estimate_vma_from_5k t with
      | some v => updateStore st uid { prof1 with vma := some v }
      | none =>
        match st uid with
        | some _ => updateStore st uid prof1
        | none => st
    else updateStore st uid prof1

/-- State effect of `setmaxhr_command` from `src/bot.py`: fetch or create the
profile and store the given value, with no validation of any kind. -/
def setmaxhr_command (st : Store) (uid : Int) (max_hr : Int) : Store :=
  let prof0 := (st uid).getD ⟨none, none, none⟩
  updateStore st uid { prof0 with max_hr := some max_hr }

/-- State effect of `vma_command` from `src/bot.py`: when the profile exists
and has a truthy `vma`, or does not exist, or has no truthy `five_k_time`,
the command only sends a message; otherwise it computes
`estimate_vma_from_5k` of the stored time and writes it back into the
profile. -/
def vma_command (st : Store) (uid : Int) : Store :=
  match st uid with
  | none => st
  | some prof =>
    if truthyOptQ prof.vma then st
    else if truthyOptInt prof.five_k_time then
      match prof.five_k_time with
      | some t =>
        match estimate_vma_from_5k t with
        | some v => updateStore st uid { prof with vma := some v }
        | none => st
      | none => st
    else st

/-- The five labelled heart-rate bands of `zoneshr_command` in `src/bot.py`,
as fractions applied to the maximum heart rate. -/
def zoneshr_zones : List (String × ℚ × ℚ) :=
  [("Zone 1 (récup)", 0.50, 0.60),
   ("Zone 2 (endurance)", 0.60, 0.70),
   ("Zone 3 (tempo / seuil bas)", 0.70, 0.80),
   ("Zone 4 (seuil / VO2)", 0.80, 0.90),
   ("Zone 5 (anaérobie)", 0.90, 1.00)]

/-- Output of `zoneshr_command` from `src/bot.py`: `none` when the profile is
missing or has no truthy `max_hr`; otherwise each band is
`(label, int(m * low), int(m * high))` computed from the maximum heart rate
alone (the profile has no resting-heart-rate field at all). -/
def zoneshr_command (st : Store) (uid : Int) : Option (List (String × Int × Int)) :=
  match st uid with
  | none => none
  | some prof =>
    match prof.max_hr with
    | none => none
    | some m =>
      if m = 0 then none
      else some (zoneshr_zones.map fun z => (z.1, pyTrunc ((m : ℚ) * z.2.1), pyTrunc ((m : ℚ) * z.2.2)))

/-! ### Helper lemmas -/

/-- Truncation of an exact integer value is that integer. -/
theorem pyTrunc_intCast (n : Int) : pyTrunc ((n : ℚ)) = n := by
  unfold pyTrunc
  split
  · exact Int.ceil_intCast n
  · exact Int.floor_intCast n

/-- Rounding an exact integer value is that integer. -/
theorem pyRound_intCast (n : Int) : pyRound ((n : ℚ)) = n := by
  unfold pyRound
  simp [Int.floor_intCast]

/-- The 5 km MAS estimate is never zero when it is defined. -/
theorem estimate_vma_ne_zero {t : Int} {v : ℚ} (h : estimate_vma_from_5k t = some v) :
    v ≠ 0 := by
  unfold estimate_vma_from_5k at h
  split at h
  · exact absurd h (by simp)
  · next h0 =>
    have ht : (t : ℚ) ≠ 0 := Int.cast_ne_zero.mpr h0
    have h1 : (t : ℚ) / 3600 ≠ 0 := div_ne_zero ht (by norm_num)
    have h2 : (5 : ℚ) / ((t : ℚ) / 3600) ≠ 0 := div_ne_zero (by norm_num) h1
    have h3 : (5 : ℚ) / ((t : ℚ) / 3600) / 0.92 ≠ 0 := div_ne_zero h2 (by norm_num)
    simp only [Option.some.injEq] at h
    exact h ▸ h3

/-- Bounds on the real power `2 ^ 1.06`, obtained by comparing fiftieth
powers: `2 ^ 53` lies strictly between `(2501/1200) ^ 50` and
`(2502/1200) ^ 50`. -/
theorem rpow_106_bounds :
    (2501 : ℝ) / 1200 < (2 : ℝ) ^ (1.06 : ℝ) ∧ (2 : ℝ) ^ (1.06 : ℝ) < 2502 / 1200 := by
  have h2 : (0 : ℝ) ≤ 2 := by norm_num
  have hkey : ((2 : ℝ) ^ (1.06 : ℝ)) ^ (50 : ℕ) = 2 ^ (53 : ℕ) := by
    rw [← Real.rpow_natCast ((2 : ℝ) ^ (1.06 : ℝ)) 50, ← Real.rpow_mul h2]
    rw [show (1.06 : ℝ) * ((50 : ℕ) : ℝ) = ((53 : ℕ) : ℝ) by push_cast; norm_num]
    rw [Real.rpow_natCast]
  constructor
  · have hcmp : ((2501 : ℝ) / 1200) ^ (50 : ℕ) < ((2 : ℝ) ^ (1.06 : ℝ)) ^ (50 : ℕ) := by
      rw [hkey, div_pow, div_lt_iff₀ (by positivity)]
      norm_num
    exact lt_of_pow_lt_pow_left₀ 50 (Real.rpow_nonneg h2 _) hcmp
  · have hcmp : ((2 : ℝ) ^ (1.06 : ℝ)) ^ (50 : ℕ) < ((2502 : ℝ) / 1200) ^ (50 : ℕ) := by
      rw [hkey, div_pow, lt_div_iff₀ (by positivity)]
      norm_num
    exact lt_of_pow_lt_pow_left₀ 50 (by positivity) hcmp

/-! ### C3: MAS estimate from a race result -/

/-- C3: for every positive `timeSeconds`, `estimateMasFromRace` divides the
average race speed by 0.92 at 5 km, 0.85 at 10 km, 0.78 at 21.1 km, 0.70 at
42.195 km, and returns the raw average speed at any other distance; at
`(5, 1200)` it returns `15 / 0.92`; on the 5 km distance it agrees with
`estimate_vma_from_5k` of `src/bot.py` (the distance table beyond 5 km is
modelled from the spec). -/
theorem estimateMas_table_spec :
    (∀ t : Int, 0 < t →
      estimateMasFromRace 5 t = some (5 / ((t : ℚ) / 3600) / 0.92)) ∧
    (∀ t : Int, 0 < t →
      estimateMasFromRace 10 t = some (10 / ((t : ℚ) / 3600) / 0.85)) ∧
    (∀ t : Int, 0 < t →
      estimateMasFromRace 21.1 t = some (21.1 / ((t : ℚ) / 3600) / 0.78)) ∧
    (∀ t : Int, 0 < t →
      estimateMasFromRace 42.195 t = some (42.195 / ((t : ℚ) / 3600) / 0.70)) ∧
    (∀ (d : ℚ) (t : Int), 0 < t → d ≠ 5 → d ≠ 10 → d ≠ 21.1 → d ≠ 42.195 →
      estimateMasFromRace d t = some (d / ((t : ℚ) / 3600))) ∧
    estimateMasFromRace 5 1200 = some (15 / 0.92) ∧
    (∀ t : Int, t ≠ 0 → estimate_vma_from_5k t = estimateMasFromRace 5 t) := by
  refine ⟨?_, ?_, ?_, ?_, ?_, ?_, ?_⟩
  · intro t ht
    have h0 : t ≠ 0 := by omega
    norm_num [estimateMasFromRace, h0]
  · intro t ht
    have h0 : t ≠ 0 := by omega
    norm_num [estimateMasFromRace, h0]
  · intro t ht
    have h0 : t ≠ 0 := by omega
    norm_num [estimateMasFromRace, h0]
  · intro t ht
    have h0 : t ≠ 0 := by omega
    norm_num [estimateMasFromRace, h0]
  · intro d t ht h5 h10 h21 h42
    have h0 : t ≠ 0 := by omega
    simp [estimateMasFromRace, h0, h5, h10, h21, h42]
  · norm_num [estimateMasFromRace]
  · intro t h0
    norm_num [estimateMasFromRace, estimate_vma_from_5k, h0]

/-- C3 witness: concrete instances of the table at 20:00 for 5 km, 36:00 for
10 km, and a distance outside the table. -/
theorem estimateMas_table_witness :
    estimateMasFromRace 5 1200 = some (5 / ((1200 : ℚ) / 3600) / 0.92) ∧
    estimateMasFromRace 10 2160 = some (10 / ((2160 : ℚ) / 3600) / 0.85) ∧
    estimateMasFromRace 7 3600 = some (7 / ((3600 : ℚ) / 3600)) :=
  ⟨estimateMas_table_spec.1 1200 (by norm_num),
   estimateMas_table_spec.2.1 2160 (by norm_num),
   estimateMas_table_spec.2.2.2.2.1 7 3600 (by norm_num) (by norm_num) (by norm_num)
     (by norm_num) (by norm_num)⟩

/-! ### C4: VO2max estimate from the 5 km time -/

/-- C4 (amended): `estimate_vo2max_from_5k` equals the Daniels formula on
`s = 5000 / t * 60` for every nonzero `t` — including negative `t`, where it
returns a plain (physiologically meaningless) value rather than failing —
and fails (`ZeroDivisionError`) exactly at `t = 0`. -/
theorem vo2_formula_spec :
    (∀ t : Int, t ≠ 0 →
      estimate_vo2max_from_5k t =
        some (-4.60 + 0.182258 * (5000 / (t : ℚ) * 60) +
          0.000104 * (5000 / (t : ℚ) * 60) ^ 2)) ∧
    estimate_vo2max_from_5k 0 = none := by
  constructor
  · intro t ht
    simp [estimate_vo2max_from_5k, ht]
  · simp [estimate_vo2max_from_5k]

/-- C4 witness: the formula instance at the 20:00 five-kilometre time. -/
theorem vo2_formula_witness :
    estimate_vo2max_from_5k 1200 =
      some (-4.60 + 0.182258 * (5000 / (1200 : ℚ) * 60) +
        0.000104 * (5000 / (1200 : ℚ) * 60) ^ 2) :=
  vo2_formula_spec.1 1200 (by norm_num)

/-- C4 counterexample: at `timeSeconds = -300 ≤ 0` the code neither fails nor
flags the result; it returns the plain value `-82.858`. -/
theorem vo2_negative_returns_value :
    estimate_vo2max_from_5k (-300) = some (-82.858) := by
  norm_num [estimate_vo2max_from_5k]

/-! ### C5: Riegel prediction -/

/-- C5 (amended): `riegel_predict_time` with the default exponent is
`t1 * (d2 / d1) ^ 1.06`; at `(1200, 5, 10)` this is `1200 * 2 ^ 1.06`, which
lies strictly between 2501 and 2502 seconds (about 2501.9, not 2498.7 as the
spec example states). -/
theorem riegel_spec :
    (∀ t1 d1 d2 : ℝ, riegel_predict_time t1 d1 d2 1.06 = t1 * (d2 / d1) ^ (1.06 : ℝ)) ∧
    riegel_predict_time 1200 5 10 1.06 = 1200 * (2 : ℝ) ^ (1.06 : ℝ) ∧
    2501 < riegel_predict_time 1200 5 10 1.06 ∧
    riegel_predict_time 1200 5 10 1.06 < 2502 := by
  have hval : riegel_predict_time 1200 5 10 1.06 = 1200 * (2 : ℝ) ^ (1.06 : ℝ) := by
    unfold riegel_predict_time
    norm_num
  refine ⟨fun _ _ _ => rfl, hval, ?_, ?_⟩
  · rw [hval]
    have h := rpow_106_bounds.1
    have h1 := (mul_lt_mul_left (by norm_num : (0 : ℝ) < 1200)).mpr h
    calc (2501 : ℝ) = 1200 * ((2501 : ℝ) / 1200) := by norm_num
    _ < 1200 * (2 : ℝ) ^ (1.06 : ℝ) := h1
  · rw [hval]
    have h := rpow_106_bounds.2
    have h1 := (mul_lt_mul_left (by norm_num : (0 : ℝ) < 1200)).mpr h
    calc 1200 * (2 : ℝ) ^ (1.06 : ℝ) < 1200 * ((2502 : ℝ) / 1200) := h1
    _ = 2502 := by norm_num

/-- C5 counterexample: the predicted time for `(1200, 5, 10)` exceeds
`2498.7 + 2`, so it is not approximately 2498.7 seconds. -/
theorem riegel_value_above_2501 :
    (2498.7 : ℝ) + 2 < riegel_predict_time 1200 5 10 1.06 := by
  have hval : riegel_predict_time 1200 5 10 1.06 = 1200 * (2 : ℝ) ^ (1.06 : ℝ) := by
    unfold riegel_predict_time
    norm_num
  rw [hval]
  have h := rpow_106_bounds.1
  have h1 := (mul_lt_mul_left (by norm_num : (0 : ℝ) < 1200)).mpr h
  calc (2498.7 : ℝ) + 2 < 1200 * ((2501 : ℝ) / 1200) := by norm_num
  _ < 1200 * (2 : ℝ) ^ (1.06 : ℝ) := h1

/-! ### C7: setting the maximum heart rate -/

/-- C7 (amended): `setmaxhr_command` performs no range validation: for every
value, in or out of `[100, 250]`, it succeeds, and the stored profile holds
exactly that value (retrievable from the store). -/
theorem setmaxhr_no_validation (st : Store) (uid v : Int) :
    (setmaxhr_command st uid v) uid =
      some { (st uid).getD ⟨none, none, none⟩ with max_hr := some v } := by
  simp [setmaxhr_command, updateStore]

/-- C7 counterexample: `maxHeartRate = 300` is outside `[100, 250]`, yet the
command succeeds and mutates the profile, storing 300. -/
theorem setmaxhr_stores_300 :
    (setmaxhr_command emptyStore 1 300) 1 = some ⟨none, none, some 300⟩ := by
  decide

/-! ### C2: heart-rate zones -/

/-- C2 (amended): for a stored profile whose `max_hr` field is a truthy
integer `m`, the zone command returns five bands whose bounds are the
cumulative fractions 0.50/0.60/0.70/0.80/0.90/1.00 of `m` itself, truncated
to integer bpm; the resting heart rate plays no role (the profile has no
such field). -/
theorem zoneshr_max_only_spec (st : Store) (uid : Int) (prof : RunnerProfile) (m : Int)
    (hprof : st uid = some prof) (hm : prof.max_hr = some m) (hm0 : m ≠ 0) :
    zoneshr_command st uid =
      some [("Zone 1 (récup)", pyTrunc ((m : ℚ) * 0.50), pyTrunc ((m : ℚ) * 0.60)),
            ("Zone 2 (endurance)", pyTrunc ((m : ℚ) * 0.60), pyTrunc ((m : ℚ) * 0.70)),
            ("Zone 3 (tempo / seuil bas)", pyTrunc ((m : ℚ) * 0.70), pyTrunc ((m : ℚ) * 0.80)),
            ("Zone 4 (seuil / VO2)", pyTrunc ((m : ℚ) * 0.80), pyTrunc ((m : ℚ) * 0.90)),
            ("Zone 5 (anaérobie)", pyTrunc ((m : ℚ) * 0.90), pyTrunc ((m : ℚ) * 1.00))] := by
  simp [zoneshr_command, hprof, hm, hm0, zoneshr_zones]

/-- C2 witness: the zone command applied to a stored profile with
`max_hr = 190`. -/
theorem zoneshr_max_only_witness :
    zoneshr_command (updateStore emptyStore 1 ⟨none, none, some 190⟩) 1 =
      some [("Zone 1 (récup)", pyTrunc ((190 : ℚ) * 0.50), pyTrunc ((190 : ℚ) * 0.60)),
            ("Zone 2 (endurance)", pyTrunc ((190 : ℚ) * 0.60), pyTrunc ((190 : ℚ) * 0.70)),
            ("Zone 3 (tempo / seuil bas)", pyTrunc ((190 : ℚ) * 0.70), pyTrunc ((190 : ℚ) * 0.80)),
            ("Zone 4 (seuil / VO2)", pyTrunc ((190 : ℚ) * 0.80), pyTrunc ((190 : ℚ) * 0.90)),
            ("Zone 5 (anaérobie)", pyTrunc ((190 : ℚ) * 0.90), pyTrunc ((190 : ℚ) * 1.00))] := by
  have h := zoneshr_max_only_spec (updateStore emptyStore 1 ⟨none, none, some 190⟩) 1
    ⟨none, none, some 190⟩ 190 (by decide) rfl (by decide)
  simpa using h

/-- C2 counterexample: with `max_hr = 190` the third zone is `[133, 152)`,
not the reserve-based `[148, 162)` the claim computes for
`maxHr = 190, restHr = 50`; a resting heart rate cannot even be supplied. -/
theorem zoneshr_at_190 :
    zoneshr_command (updateStore emptyStore 1 ⟨none, none, some 190⟩) 1 =
      some [("Zone 1 (récup)", 95, 114),
            ("Zone 2 (endurance)", 114, 133),
            ("Zone 3 (tempo / seuil bas)", 133, 152),
            ("Zone 4 (seuil / VO2)", 152, 171),
            ("Zone 5 (anaérobie)", 171, 190)] ∧
    ((133 : Int), (152 : Int)) ≠ ((148 : Int), (162 : Int)) := by
  refine ⟨?_, by decide⟩
  have e1 : ((190 : Int) : ℚ) * 0.50 = ((95 : Int) : ℚ) := by norm_num
  have e2 : ((190 : Int) : ℚ) * 0.60 = ((114 : Int) : ℚ) := by norm_num
  have e3 : ((190 : Int) : ℚ) * 0.70 = ((133 : Int) : ℚ) := by norm_num
  have e4 : ((190 : Int) : ℚ) * 0.80 = ((152 : Int) : ℚ) := by norm_num
  have e5 : ((190 : Int) : ℚ) * 0.90 = ((171 : Int) : ℚ) := by norm_num
  have e6 : ((190 : Int) : ℚ) * 1.00 = ((190 : Int) : ℚ) := by norm_num
  simp only [zoneshr_command, updateStore, emptyStore, zoneshr_zones]
  norm_num [e1, e2, e3, e4, e5, e6, pyTrunc_intCast, pyTrunc]

/-! ### C6: recording a 5 km time -/

/-- C6 (amended): an accepted 5 km submission always overwrites the stored
5 km time, but recomputes and stores the estimated MAS only when the profile
has no MAS yet; an already-set MAS is left untouched. The cases: existing
profile with a set MAS, existing profile with no MAS, and no profile. -/
theorem set5k_overwrite_spec :
    (∀ (st : Store) (uid : Int) (temps : String) (t : Int) (prof : RunnerProfile) (v : ℚ),
      parse_time_to_seconds temps = some t → st uid = some prof → prof.vma = some v →
      (set5k_command st uid temps) uid = some { prof with five_k_time := some t }) ∧
    (∀ (st : Store) (uid : Int) (temps : String) (t : Int) (prof : RunnerProfile),
      parse_time_to_seconds temps = some t → st uid = some prof → prof.vma = none → t ≠ 0 →
      (set5k_command st uid temps) uid =
        some { prof with five_k_time := some t, vma := estimate_vma_from_5k t }) ∧
    (∀ (st : Store) (uid : Int) (temps : String) (t : Int),
      parse_time_to_seconds temps = some t → st uid = none → t ≠ 0 →
      (set5k_command st uid temps) uid =
        some ⟨estimate_vma_from_5k t, some t, none⟩) := by
  refine ⟨?_, ?_, ?_⟩
  · intro st uid temps t prof v hparse hprof hvma
    simp [set5k_command, hparse, hprof, hvma, updateStore]
  · intro st uid temps t prof hparse hprof hvma ht
    obtain ⟨v, hv⟩ : ∃ v, estimate_vma_from_5k t = some v := by
      simp [estimate_vma_from_5k, ht]
    simp [set5k_command, hparse, hprof, hvma, hv, updateStore]
  · intro st uid temps t hparse hprof ht
    obtain ⟨v, hv⟩ : ∃ v, estimate_vma_from_5k t = some v := by
      simp [estimate_vma_from_5k, ht]
    simp [set5k_command, hparse, hprof, hv, updateStore]

/-- C6 witness: a profile whose MAS is already 20 km/h receives a 20:00
submission; the time is stored and the MAS stays 20. -/
theorem set5k_overwrite_witness :
    (set5k_command (updateStore emptyStore 1 ⟨some 20, none, none⟩) 1 "20:00") 1 =
      some ⟨some 20, some 1200, none⟩ :=
  set5k_overwrite_spec.1 (updateStore emptyStore 1 ⟨some 20, none, none⟩) 1 "20:00" 1200
    ⟨some 20, none, none⟩ 20 (by decide) (by decide) rfl

/-- C6 counterexample: with a MAS of 20 km/h already stored, submitting a
20:00 five-kilometre time leaves the MAS at 20 instead of recomputing it to
`estimate_vma_from_5k 1200 = 375/23`. -/
theorem set5k_keeps_existing_vma :
    (set5k_command (updateStore emptyStore 1 ⟨some 20, none, none⟩) 1 "20:00") 1 =
      some ⟨some 20, some 1200, none⟩ ∧
    estimate_vma_from_5k 1200 = some (375 / 23) ∧ (375 / 23 : ℚ) ≠ 20 := by
  refine ⟨by decide, ?_, by norm_num⟩
  norm_num [estimate_vma_from_5k]

/-! ### C9: the VMA query writes back -/

/-- C9 (amended): for a stored profile with a nonzero recorded 5 km time and
no stored VMA, the VMA query computes `estimate_vma_from_5k` of that time
and writes it back into the profile; once written, a further VMA query
leaves the store unchanged (it returns the cached value). -/
theorem vma_command_caches (st : Store) (uid t : Int) (prof : RunnerProfile) (v : ℚ)
    (hprof : st uid = some prof) (hvma : prof.vma = none)
    (h5k : prof.five_k_time = some t) (ht : t ≠ 0)
    (hv : estimate_vma_from_5k t = some v) :
    vma_command st uid = updateStore st uid { prof with vma := some v } ∧
    (vma_command st uid) uid = some { prof with vma := some v } ∧
    vma_command (vma_command st uid) uid = vma_command st uid := by
  have h1 : vma_command st uid = updateStore st uid { prof with vma := some v } := by
    simp [vma_command, hprof, hvma, h5k, hv, truthyOptQ, truthyOptInt, ht]
  have h2 : (vma_command st uid) uid = some { prof with vma := some v } := by
    rw [h1]
    simp [updateStore]
  have hv0 : v ≠ 0 := estimate_vma_ne_zero hv
  refine ⟨h1, h2, ?_⟩
  rw [h1] at h2 ⊢
  unfold vma_command
  rw [h2]
  simp [truthyOptQ, hv0]

/-- C9 witness: a profile with a 20:00 five-kilometre time and no VMA; the
query writes back `375/23` km/h. -/
theorem vma_command_caches_witness :
    (vma_command (updateStore emptyStore 1 ⟨none, some 1200, none⟩) 1) 1 =
      some ⟨some (375 / 23), some 1200, none⟩ :=
  (vma_command_caches (updateStore emptyStore 1 ⟨none, some 1200, none⟩) 1 1200
    ⟨none, some 1200, none⟩ (375 / 23) (by decide) rfl rfl (by decide)
    (by norm_num [estimate_vma_from_5k])).2.1

/-- C9 counterexample: a profile with a recorded 5 km time of 0 (reachable:
`setmaxhr` creates the profile, then `set5k 0:00` stores the time before the
MAS computation raises) and no stored VMA; the VMA query computes nothing
and writes nothing back. -/
theorem vma_command_zero_time_no_write :
    (vma_command (updateStore emptyStore 1 ⟨none, some 0, some 190⟩) 1) 1 =
      some ⟨none, some 0, some 190⟩ := by
  decide

/-! ### C10: pace rendering does not carry rounded seconds -/

/-- C10: whenever the remainder of the pace modulo 60 rounds to 60, the
rendered pace keeps the minutes field at `⌊q/60⌋` and shows a seconds field
of 60, instead of rolling over to the next minute. -/
theorem seconds_to_pace_no_carry (q : ℚ) (h0 : 0 ≤ q)
    (h : pyRound (q - 60 * ⌊q / 60⌋) = 60) :
    seconds_to_pace_parts q = (⌊q / 60⌋, 60) ∧
    seconds_to_pace_parts q ≠ (⌊q / 60⌋ + 1, 0) ∧
    seconds_to_pace_str q =
      ⟨renderInt ⌊q / 60⌋ ++ ':' :: '6' :: '0' :: ' ' :: '/' :: 'k' :: 'm' :: []⟩ := by
  have hparts : seconds_to_pace_parts q = (⌊q / 60⌋, 60) := by
    simp [seconds_to_pace_parts, h]
  refine ⟨hparts, by simp [hparts], ?_⟩
  simp only [seconds_to_pace_str, hparts]
  rw [show pad2 60 = ['6', '0'] from by decide]
  rfl

/-- C10 witness: a pace of 299.6 seconds per kilometre renders as
`4:60 /km`, not `5:00 /km`. -/
theorem seconds_to_pace_no_carry_witness :
    seconds_to_pace_str 299.6 = "4:60 /km" ∧ "4:60 /km" ≠ "5:00 /km" := by
  have hf : ⌊(299.6 : ℚ) / 60⌋ = 4 := by
    rw [Int.floor_eq_iff]
    constructor <;> norm_num
  have h59 : (299.6 : ℚ) - 60 * ((4 : Int) : ℚ) = 59.6 := by
    push_cast
    norm_num
  have hf2 : ⌊(59.6 : ℚ)⌋ = 59 := by
    rw [Int.floor_eq_iff]
    constructor <;> norm_num
  have hr : pyRound ((299.6 : ℚ) - 60 * ⌊(299.6 : ℚ) / 60⌋) = 60 := by
    rw [hf, h59]
    simp only [pyRound, hf2]
    norm_num
  have h := (seconds_to_pace_no_carry 299.6 (by norm_num) hr).2.2
  rw [h, hf]
  constructor
  · decide
  · decide

/-! ### String-rendering helper lemmas for the parse/format round trip -/

theorem digit_ne_colon {c : Char} (h : isDigitChar c = true) : c ≠ ':' := by
  intro he
  subst he
  revert h
  decide

theorem digit_ne_plus {c : Char} (h : isDigitChar c = true) : c ≠ '+' := by
  intro he
  subst he
  revert h
  decide

theorem digit_ne_minus {c : Char} (h : isDigitChar c = true) : c ≠ '-' := by
  intro he
  subst he
  revert h
  decide

theorem digit_not_space {c : Char} (h : isDigitChar c = true) : isPySpace c = false := by
  by_contra hsp
  rw [Bool.not_eq_false] at hsp
  simp only [isPySpace, Bool.or_eq_true, decide_eq_true_eq] at hsp
  rcases hsp with ((((h1 | h1) | h1) | h1) | h1) | h1 <;> (subst h1; revert h; decide)

theorem colon_not_space : isPySpace ':' = false := by decide

theorem dropWhile_eq_self_of_all {p : Char → Bool} {l : List Char}
    (h : ∀ c ∈ l, p c = false) : l.dropWhile p = l := by
  cases l with
  | nil => rfl
  | cons a t =>
    rw [List.dropWhile_cons, h a (by simp)]
    simp

theorem pyStrip_eq_self {l : List Char} (h : ∀ c ∈ l, isPySpace c = false) :
    pyStrip l = l := by
  unfold pyStrip
  rw [dropWhile_eq_self_of_all h,
    dropWhile_eq_self_of_all (fun c hc => h c (List.mem_reverse.mp hc)),
    List.reverse_reverse]

theorem splitOnColon_no_colon {l : List Char} (h : ∀ c ∈ l, c ≠ ':') :
    splitOnColon l = [l] := by
  induction l with
  | nil => rfl
  | cons c t ih =>
    simp only [splitOnColon]
    rw [if_neg (h c (by simp)), ih (fun x hx => h x (by simp [hx]))]

theorem splitOnColon_append {a b : List Char} (h : ∀ c ∈ a, c ≠ ':') :
    splitOnColon (a ++ ':' :: b) = a :: splitOnColon b := by
  induction a with
  | nil =>
    show splitOnColon (':' :: b) = [] :: splitOnColon b
    simp [splitOnColon]
  | cons c t ih =>
    show splitOnColon (c :: (t ++ ':' :: b)) = (c :: t) :: splitOnColon b
    simp only [splitOnColon]
    rw [if_neg (h c (by simp)), ih (fun x hx => h x (by simp [hx]))]

theorem isDigitChar_digitChar {d : Nat} (h : d < 10) : isDigitChar (digitChar d) = true := by
  interval_cases d <;> decide

theorem digitVal_digitChar {d : Nat} (h : d < 10) : digitVal (digitChar d) = d := by
  interval_cases d <;> decide

theorem natDigitsFuel_digits : ∀ fuel n, n ≤ fuel →
    (natDigitsFuel fuel n).all isDigitChar = true ∧ natDigitsFuel fuel n ≠ [] := by
  intro fuel
  induction fuel with
  | zero =>
    intro n hn
    have : n = 0 := by omega
    subst this
    exact ⟨by decide, by decide⟩
  | succ fuel ih =>
    intro n hn
    by_cases h10 : n < 10
    · simp [natDigitsFuel, h10, isDigitChar_digitChar h10]
    · have hdiv : n / 10 ≤ fuel := by
        have hlt : n / 10 < n := Nat.div_lt_self (by omega) (by omega)
        omega
      have hrec := ih (n / 10) hdiv
      have hmod : n % 10 < 10 := Nat.mod_lt _ (by omega)
      simp [natDigitsFuel, h10, hrec.1, isDigitChar_digitChar hmod]

theorem digitsToNat_append_single (xs : List Char) (c : Char) :
    digitsToNat (xs ++ [c]) = 10 * digitsToNat xs + digitVal c := by
  simp [digitsToNat, List.foldl_append]

theorem digitsToNat_natDigitsFuel : ∀ fuel n, n ≤ fuel →
    digitsToNat (natDigitsFuel fuel n) = n := by
  intro fuel
  induction fuel with
  | zero =>
    intro n hn
    have : n = 0 := by omega
    subst this
    decide
  | succ fuel ih =>
    intro n hn
    by_cases h10 : n < 10
    · simp [natDigitsFuel, h10, digitsToNat, digitVal_digitChar h10]
    · have hdiv : n / 10 ≤ fuel := by
        have hlt : n / 10 < n := Nat.div_lt_self (by omega) (by omega)
        omega
      have hmod : n % 10 < 10 := Nat.mod_lt _ (by omega)
      simp only [natDigitsFuel, h10, if_false, digitsToNat_append_single,
        ih (n / 10) hdiv, digitVal_digitChar hmod]
      omega

theorem natDigits_digits (n : Nat) :
    (natDigits n).all isDigitChar = true ∧ natDigits n ≠ [] :=
  natDigitsFuel_digits n n le_rfl

theorem digitsToNat_natDigits (n : Nat) : digitsToNat (natDigits n) = n :=
  digitsToNat_natDigitsFuel n n le_rfl

theorem pyIntOfChars_digits {ds : List Char} (h1 : ds ≠ []) (h2 : ds.all isDigitChar = true) :
    pyIntOfChars ds = some ((digitsToNat ds : Nat) : Int) := by
  have hspace : ∀ c ∈ ds, isPySpace c = false := by
    intro c hc
    exact digit_not_space (by exact List.all_eq_true.mp h2 c hc)
  unfold pyIntOfChars
  rw [pyStrip_eq_self hspace]
  rcases ds with _ | ⟨c, t⟩
  · exact absurd rfl h1
  · have hc : isDigitChar c = true := List.all_eq_true.mp h2 c (by simp)
    split
    · next ds heq =>
      rw [List.cons.injEq] at heq
      exact absurd heq.1 (digit_ne_plus hc)
    · next ds heq =>
      rw [List.cons.injEq] at heq
      exact absurd heq.1 (digit_ne_minus hc)
    · rw [if_pos ⟨by simp, h2⟩]

theorem pyIntOfChars_natDigits (n : Nat) :
    pyIntOfChars (natDigits n) = some ((n : Nat) : Int) := by
  rw [pyIntOfChars_digits (natDigits_digits n).2 (natDigits_digits n).1,
    digitsToNat_natDigits]

theorem digitsToNat_cons_zero (ds : List Char) :
    digitsToNat ('0' :: ds) = digitsToNat ds := rfl

theorem pad2_digits (k : Int) (h0 : 0 ≤ k) :
    (pad2 k).all isDigitChar = true ∧ pad2 k ≠ [] ∧
    pyIntOfChars (pad2 k) = some k := by
  unfold pad2
  by_cases h10 : k < 10
  · rw [if_pos ⟨h0, h10⟩]
    have hd := natDigits_digits k.toNat
    have hz : isDigitChar '0' = true := by decide
    refine ⟨by simp [hd.1, hz], by simp, ?_⟩
    rw [pyIntOfChars_digits (by simp) (by simp [hd.1, hz]), digitsToNat_cons_zero,
      digitsToNat_natDigits, Int.toNat_of_nonneg h0]
  · rw [if_neg (by simp [h10])]
    unfold renderInt
    rw [if_neg (by omega)]
    have hd := natDigits_digits k.toNat
    refine ⟨hd.1, hd.2, ?_⟩
    rw [pyIntOfChars_natDigits, Int.toNat_of_nonneg h0]

theorem renderInt_nonneg_digits (k : Int) (h0 : 0 ≤ k) :
    (renderInt k).all isDigitChar = true ∧ renderInt k ≠ [] ∧
    pyIntOfChars (renderInt k) = some k := by
  unfold renderInt
  rw [if_neg (by omega)]
  have hd := natDigits_digits k.toNat
  exact ⟨hd.1, hd.2, by rw [pyIntOfChars_natDigits, Int.toNat_of_nonneg h0]⟩

theorem parse_time_mk_two {a b : List Char} {m s : Int}
    (ha : a.all isDigitChar = true) (hb : b.all isDigitChar = true)
    (hma : pyIntOfChars a = some m) (hsb : pyIntOfChars b = some s) :
    parse_time_to_seconds ⟨a ++ ':' :: b⟩ = some (m * 60 + s) := by
  have hspace : ∀ c ∈ a ++ ':' :: b, isPySpace c = false := by
    intro c hc
    rcases List.mem_append.mp hc with h | h
    · exact digit_not_space (List.all_eq_true.mp ha c h)
    · rcases List.mem_cons.mp h with h | h
      · subst h
        decide
      · exact digit_not_space (List.all_eq_true.mp hb c h)
  have hnc : ∀ c ∈ a, c ≠ ':' := fun c hc => digit_ne_colon (List.all_eq_true.mp ha c hc)
  have hncb : ∀ c ∈ b, c ≠ ':' := fun c hc => digit_ne_colon (List.all_eq_true.mp hb c hc)
  unfold parse_time_to_seconds
  show (match splitOnColon (pyStrip (a ++ ':' :: b)) with
    | [ms, ss] =>
      match pyIntOfChars ms, pyIntOfChars ss with
      | some m, some s => some (m * 60 + s)
      | _, _ => none
    | [hs, ms, ss] =>
      match pyIntOfChars hs, pyIntOfChars ms, pyIntOfChars ss with
      | some h, some m, some s => some (h * 3600 + m * 60 + s)
      | _, _, _ => none
    | _ => none) = some (m * 60 + s)
  rw [pyStrip_eq_self hspace, splitOnColon_append hnc, splitOnColon_no_colon hncb]
  simp only [hma, hsb]

theorem parse_time_mk_three {a b c : List Char} {hh m s : Int}
    (ha : a.all isDigitChar = true) (hb : b.all isDigitChar = true)
    (hc : c.all isDigitChar = true)
    (hha : pyIntOfChars a = some hh) (hmb : pyIntOfChars b = some m)
    (hsc : pyIntOfChars c = some s) :
    parse_time_to_seconds ⟨a ++ ':' :: (b ++ ':' :: c)⟩ = some (hh * 3600 + m * 60 + s) := by
  have hspace : ∀ x ∈ a ++ ':' :: (b ++ ':' :: c), isPySpace x = false := by
    intro x hx
    rcases List.mem_append.mp hx with h | h
    · exact digit_not_space (List.all_eq_true.mp ha x h)
    · rcases List.mem_cons.mp h with h | h
      · subst h
        decide
      · rcases List.mem_append.mp h with h | h
        · exact digit_not_space (List.all_eq_true.mp hb x h)
        · rcases List.mem_cons.mp h with h | h
          · subst h
            decide
          · exact digit_not_space (List.all_eq_true.mp hc x h)
  have hna : ∀ x ∈ a, x ≠ ':' := fun x hx => digit_ne_colon (List.all_eq_true.mp ha x hx)
  have hnb : ∀ x ∈ b, x ≠ ':' := fun x hx => digit_ne_colon (List.all_eq_true.mp hb x hx)
  have hnc : ∀ x ∈ c, x ≠ ':' := fun x hx => digit_ne_colon (List.all_eq_true.mp hc x hx)
  unfold parse_time_to_seconds
  show (match splitOnColon (pyStrip (a ++ ':' :: (b ++ ':' :: c))) with
    | [ms, ss] =>
      match pyIntOfChars ms, pyIntOfChars ss with
      | some m, some s => some (m * 60 + s)
      | _, _ => none
    | [hs, ms, ss] =>
      match pyIntOfChars hs, pyIntOfChars ms, pyIntOfChars ss with
      | some h, some m, some s => some (h * 3600 + m * 60 + s)
      | _, _, _ => none
    | _ => none) = some (hh * 3600 + m * 60 + s)
  rw [pyStrip_eq_self hspace, splitOnColon_append hna, splitOnColon_append hnb,
    splitOnColon_no_colon hnc]
  simp only [hha, hmb, hsc]

/-- C8 (amended): for every string the parser accepts with a nonnegative
total, formatting the total and parsing it again returns the same number of
seconds (the string form is only normalized); accepted strings with negative
totals, such as `"-2:30"`, break the round trip. -/
theorem parse_format_roundtrip (s : String) (t : Int)
    (hacc : parse_time_to_seconds s = some t) (ht : 0 ≤ t) :
    parse_time_to_seconds (format_time (t : ℚ)) = some t := by
  have hn : format_time (t : ℚ) =
      if 0 < t / 3600 then
        (⟨renderInt (t / 3600) ++ ':' :: (pad2 (t % 3600 / 60) ++ ':' :: pad2 (t % 60))⟩ : String)
      else ⟨renderInt (t % 3600 / 60) ++ ':' :: pad2 (t % 60)⟩ := by
    simp only [format_time, pyRound_intCast]
  rw [hn]
  by_cases hbig : 3600 ≤ t
  · rw [if_pos (by omega)]
    obtain ⟨hhd, hhne, hhint⟩ := renderInt_nonneg_digits (t / 3600) (by omega)
    obtain ⟨hmd, hmne, hmint⟩ := pad2_digits (t % 3600 / 60) (by omega)
    obtain ⟨hsd, hsne, hsint⟩ := pad2_digits (t % 60) (by omega)
    rw [parse_time_mk_three hhd hmd hsd hhint hmint hsint]
    exact congrArg some (by omega)
  · rw [if_neg (by omega)]
    obtain ⟨hmd, hmne, hmint⟩ := renderInt_nonneg_digits (t % 3600 / 60) (by omega)
    obtain ⟨hsd, hsne, hsint⟩ := pad2_digits (t % 60) (by omega)
    rw [parse_time_mk_two hmd hsd hmint hsint]
    exact congrArg some (by omega)

/-! ### C1: parse failure modes -/

/-- C1 (amended): `parse_time_to_seconds` fails (`ValueError`, the
InvalidFormat failure) exactly when the number of colon-separated groups of
the stripped input is not 2 or 3 or some group is not accepted by `int`;
for every input that does parse into groups it returns the total
`h * 3600 + m * 60 + s` unconditionally — there is no plausibility check on
the resulting duration. -/
theorem parse_time_format_only_spec (s : String) :
    (parse_time_to_seconds s = none ↔ ¬ goodGroups (splitOnColon (pyStrip s.data))) ∧
    (∀ a b m sec, splitOnColon (pyStrip s.data) = [a, b] →
      pyIntOfChars a = some m → pyIntOfChars b = some sec →
      parse_time_to_seconds s = some (m * 60 + sec)) ∧
    (∀ a b c hh m sec, splitOnColon (pyStrip s.data) = [a, b, c] →
      pyIntOfChars a = some hh → pyIntOfChars b = some m → pyIntOfChars c = some sec →
      parse_time_to_seconds s = some (hh * 3600 + m * 60 + sec)) := by
  unfold parse_time_to_seconds goodGroups
  rcases hgs : splitOnColon (pyStrip s.data) with _ | ⟨a, _ | ⟨b, _ | ⟨c, rest⟩⟩⟩
  · simp
  · simp
  · rcases ha : pyIntOfChars a with _ | m <;> rcases hb : pyIntOfChars b with _ | sec <;>
      simp_all
  · rcases rest with _ | ⟨d, rest⟩
    · rcases ha : pyIntOfChars a with _ | hh <;> rcases hb : pyIntOfChars b with _ | m <;>
        rcases hc : pyIntOfChars c with _ | sec <;> simp_all
    · simp

/-- C1 witness: `"1:02:03"` splits into three integer groups and parses to
3723 seconds. -/
theorem parse_time_format_only_witness :
    parse_time_to_seconds "1:02:03" = some (1 * 3600 + 2 * 60 + 3) :=
  (parse_time_format_only_spec "1:02:03").2.2 ['1'] ['0', '2'] ['0', '3'] 1 2 3
    (by decide) (by decide) (by decide) (by decide)

/-- C1 counterexample: the claim says `"100:00:00"` (360000 s > 172800 s) and
`"0:30"` (30 s < 60 s) are rejected with ImplausibleDuration; the code
returns their totals. `"patate"` is indeed an InvalidFormat failure. -/
theorem parse_time_no_duration_check :
    parse_time_to_seconds "100:00:00" = some 360000 ∧
    parse_time_to_seconds "0:30" = some 30 ∧
    parse_time_to_seconds "patate" = none ∧
    (360000 : Int) > 172800 ∧ (30 : Int) < 60 := by
  decide

/-! ### C8: format is a right inverse of parse on nonnegative totals -/

/-- C8 witness: `"1:30"` parses to 90 s; formatting 90 s and reparsing gives
90 s again. -/
theorem parse_format_roundtrip_witness :
    parse_time_to_seconds "1:30" = some 90 ∧
    parse_time_to_seconds (format_time ((90 : Int) : ℚ)) = some 90 :=
  ⟨by decide, parse_format_roundtrip "1:30" 90 (by decide) (by decide)⟩

/-- C8 counterexample: `"-2:30"` is accepted by the parser (total −90 s), but
`format_time` renders −90 as `"58:30"`, which parses back to 3510 s, not
−90 s. -/
theorem parse_format_roundtrip_negative :
    parse_time_to_seconds "-2:30" = some (-90) ∧
    format_time ((-90 : Int) : ℚ) = "58:30" ∧
    parse_time_to_seconds "58:30" = some 3510 ∧ (3510 : Int) ≠ -90 := by
  refine ⟨by decide, ?_, by decide, by decide⟩
  simp only [format_time, pyRound_intCast]
  decide
